import Mathlib

/-!
Shallow embedding of the WebSocket message-center subsystem of
`backend/application/websocketConfig.py` (django-vue3-admin), together with
the slice of the relational data model it reads and writes
(`dvadmin/system/models.py`: `Users`, `MessageCenter`,
`MessageCenterTargetUser`).

Modelling conventions:
- JSON payloads are ordered association lists (Python dicts preserve
  insertion order; all payloads built here have unique keys).
- Database tables are Lean lists of row structures; query-set order is the
  table order, and the auto-increment primary key of `MessageCenter` is the
  `next_id` field of the store.
- Python attributes that may be unassigned are `Option`-valued; reading an
  unassigned attribute is an `AttributeError` outcome.
- A Python exception aborts the function but leaves earlier database writes
  in place, so effectful functions return a result record holding the store
  reached so far plus an optional error, instead of `Except`.
-/

namespace WsConfig

/-- JSON scalar values as they occur in the payloads of this subsystem. -/
inductive JVal where
  | str (s : String)
  | int (n : Nat)
  | null
  deriving Repr, DecidableEq

/-- A JSON object, modelled as an ordered association list. -/
abbrev JObj := List (String × JVal)

/-- Key lookup in a JSON object; first binding wins (keys are unique in every
object built by this subsystem, matching Python dict semantics). -/
def jlookup (o : JObj) (k : String) : Option JVal :=
  match o with
  | [] => none
  | (k2, v) :: rest => if k2 = k then some v else jlookup rest k

/-- Python dict update by spreading the object and then binding key `k` to
`v`: an existing binding for `k` is replaced in place, otherwise the binding
is appended at the end. -/
def dictSet (o : JObj) (k : String) (v : JVal) : JObj :=
  match o with
  | [] => [(k, v)]
  | (k2, v2) :: rest => if k2 = k then (k, v) :: rest else (k2, v2) :: dictSet rest k v

/-- One row of the `Users` table (`dvadmin/system/models.py`), restricted to
the columns this subsystem reads: the primary key, the many-to-many role
assignment (one list entry per user-role row), the nullable `dept` foreign
key, and the `is_active` flag inherited from `AbstractUser` (no query in this
subsystem filters on it; `CustomUserManager` does not override
`get_queryset`). -/
structure UserRow where
  id : Nat
  roles : List Nat
  dept : Option Nat
  is_active : Bool
  deriving Repr, DecidableEq

/-- One row of `MessageCenter`: the persisted Message record. The
many-to-many `target_user` relation lives in the `MessageCenterTargetUser`
through table, modelled separately as `LinkRow`. -/
structure MessageRow where
  id : Nat
  title : String
  content : String
  target_type : Nat
  deriving Repr, DecidableEq

/-- One row of `MessageCenterTargetUser`: the RecipientLink of the spec.
`is_read` defaults to false on creation. -/
structure LinkRow where
  messagecenter : Nat
  users : Nat
  is_read : Bool
  deriving Repr, DecidableEq

/-- The relational store this subsystem reads and writes. `next_id` models
the auto-increment primary key handed to the next `MessageCenter` row. -/
structure Store where
  users : List UserRow
  messages : List MessageRow
  links : List LinkRow
  next_id : Nat
  deriving Repr, DecidableEq

/-- Embeds `set_message` (websocketConfig.py line 38): the standard message
structure. The Python parameter default `unread=0` is passed explicitly by
the callers here. -/
def set_message (sender msg_type msg : String) (unread : Nat) : JObj :=
  [("sender", JVal.str sender), ("contentType", JVal.str msg_type),
   ("content", JVal.str msg), ("unread", JVal.int unread)]

/-- Embeds `_get_message_unread` (websocketConfig.py line 93): the count of
`MessageCenterTargetUser` rows for the user whose `is_read` flag is false. -/
def _get_message_unread (st : Store) (user_id : Nat) : Nat :=
  (st.links.filter (fun l => l.users == user_id && !l.is_read)).length

/-- Embeds `_get_message_center_instance` (websocketConfig.py line 66). The
query joins the filtered `MessageCenter` row against the through table and
takes the `target_user` values: no matching message gives an empty query set,
which the function maps to an empty list; a matching message yields one value
per link row, and the left outer join yields a single SQL null (Python
`None`) when the message has no links. `none` as `message_id` models the
Python `None` default, which matches no row. -/
def _get_message_center_instance (st : Store) (message_id : Option Nat) :
    List (Option Nat) :=
  match message_id with
  | none => []
  | some m =>
    if st.messages.any (fun r => r.id == m) then
      match (st.links.filter (fun l => l.messagecenter == m)).map
          (fun l => some l.users) with
      | [] => [none]
      | ts => ts
    else []

/-- Python `str` on the modelled values: `str(None)` is the string `None`. -/
def py_str : Option Nat → String
  | some n => toString n
  | none => "None"

/-- A `group_send` call on the channel layer: target group name and the
`json` payload of the `push.message` event. -/
abbrev GroupSend := String × JObj

/-- Embeds `MegCenter.receive` (websocketConfig.py line 251) on an already
parsed inbound JSON object: reads `message_id` (absent or non-integer maps to
Python `None`), fetches the stored recipient list for that message, and
issues one `group_send` per entry, forwarding the inbound object itself as
the payload. `sess_user` is the id of the user owning the session; the method
never consults it. The function is total: after JSON parsing there is no
error path. -/
def receive (sess_user : Nat) (st : Store) (obj : JObj) : List GroupSend :=
  let message_id : Option Nat :=
    match jlookup obj "message_id" with
    | some (JVal.int n) => some n
    | _ => none
  (_get_message_center_instance st message_id).map
    (fun su => ("user_" ++ py_str su, obj))

/-- Embeds `MegCenter.push_message` (websocketConfig.py line 290): the frame
written to the client transport is exactly the `json` field of the event,
unchanged. -/
def push_message (event : JObj) : JObj := event

/-- Validation performed by `MessageCreateSerializer` (websocketConfig.py
line 312, all fields of `MessageCenter`), modelled from the column
constraints in `dvadmin/system/models.py`: `title` is a required
`CharField` with `max_length=100` and `content` is a required `TextField`. -/
def message_valid (title content : String) : Bool :=
  title != "" && decide (title.length ≤ 100) && content != ""

/-- Modelled from the spec: the per-row validation performed by
`MessageCenterTargetUserSerializer`, whose source file
(`dvadmin/system/views/message_center.py`) is not part of this snapshot —
only its import and call site are. The spec error taxonomy lists
`ValidationFailed` on the RecipientLink batch for malformed resolved
recipient data; modelled as the foreign-key existence check on the
referenced user. -/
def link_row_valid (st : Store) (user_id : Nat) : Bool :=
  st.users.any (fun u => u.id == user_id)

/-- Embeds the by-role recipient query (websocketConfig.py line 434):
`Users.objects.filter(role__id__in=target_role).values_list(id)`. The
many-to-many join produces one result row per user-role assignment whose
role is targeted — there is no `.distinct()` — so a user holding several
targeted roles appears once per such role. -/
def resolve_by_role (st : Store) (target_role : List Nat) : List Nat :=
  st.users.flatMap
    (fun u => (u.roles.filter (fun r => target_role.contains r)).map (fun _ => u.id))

/-- Embeds the by-department recipient query (websocketConfig.py line 437):
`dept` is a single nullable foreign key, so each matching user appears
once. -/
def resolve_by_dept (st : Store) (target_dept : List Nat) : List Nat :=
  (st.users.filter (fun u =>
    match u.dept with
    | some d => target_dept.contains d
    | none => false)).map (fun u => u.id)

/-- Embeds the broadcast recipient query (websocketConfig.py line 440):
`Users.objects.values_list(id)` — every row of the user table; the default
manager applies no filter on `is_active` or anything else. -/
def resolve_all (st : Store) : List Nat :=
  st.users.map (fun u => u.id)

/-- Arguments of `create_message_push`; `Option` models the Python `None`
defaults of `target_user`, `target_dept`, `target_role` and `message`. -/
structure PublishArgs where
  title : String
  content : String
  target_type : Nat
  target_user : Option (List Nat)
  target_dept : Option (List Nat)
  target_role : Option (List Nat)
  message : Option JObj
  deriving Repr, DecidableEq

/-- The two exception points of `create_message_push`: validation of the
Message record, and validation of the RecipientLink batch. -/
inductive PublishError where
  | messageValidation
  | linkValidation
  deriving Repr, DecidableEq

/-- Outcome of `create_message_push`: the store after the call (an exception
leaves earlier writes in place), the `group_send` calls issued, the Python
return value of the function, and the exception raised, if any. -/
structure PublishResult where
  store : Store
  pushes : List GroupSend
  ret : Option Nat
  error : Option PublishError
  deriving Repr, DecidableEq

/-- The message dict defaulting of `create_message_push`: when `message` is
`None` it becomes the INFO dict with null content. -/
def default_message (a : PublishArgs) : JObj :=
  a.message.getD [("contentType", JVal.str "INFO"), ("content", JVal.null)]

/-- The save of the validated `MessageCenter` row: appends the new message
row under the next primary key. -/
def with_message (st : Store) (a : PublishArgs) : Store :=
  { st with
    messages := st.messages ++ [⟨st.next_id, a.title, a.content, a.target_type⟩],
    next_id := st.next_id + 1 }

/-- The recipient-resolution step of `create_message_push`, in source order:
`users = target_user or []`, then overridden by the role, department or
broadcast query when `target_type` is 1, 2 or 3 (the three `if` statements
are mutually exclusive on a single `target_type` value). -/
def resolved_users (st : Store) (a : PublishArgs) : List Nat :=
  if a.target_type = 1 then resolve_by_role st (a.target_role.getD [])
  else if a.target_type = 2 then resolve_by_dept st (a.target_dept.getD [])
  else if a.target_type = 3 then resolve_all st
  else a.target_user.getD []

/-- The bulk save of the validated `MessageCenterTargetUser` batch: appends
one link row per resolved list entry, unread by default, referencing the
just-saved message row. -/
def save_links (st : Store) (a : PublishArgs) : Store :=
  { with_message st a with
    links := st.links ++ (resolved_users (with_message st a) a).map
      (fun u => ⟨st.next_id, u, false⟩) }

/-- The push fan-out loop of `create_message_push`: one `group_send` per
resolved list entry, whose payload is the message dict with the unread count
of that recipient — recomputed against the post-insertion store — merged
in under the `unread` key. -/
def publish_pushes (st : Store) (a : PublishArgs) : List GroupSend :=
  (resolved_users (with_message st a) a).map (fun u =>
    ("user_" ++ toString u,
     dictSet (default_message a) "unread"
       (JVal.int (_get_message_unread (save_links st a) u))))

/-- Embeds `create_message_push` (websocketConfig.py line 367), assembled
from the step definitions above, in source order: validation and save of the
`MessageCenter` row (failure raises before anything is written); recipient
resolution; validation and bulk save of the `MessageCenterTargetUser` batch
(failure raises with the message row already saved); then the push fan-out.
The function body has no return statement, so the Python return value is
always `None`. -/
def create_message_push (st : Store) (a : PublishArgs) : PublishResult :=
  if message_valid a.title a.content then
    if (resolved_users (with_message st a) a).all
        (fun u => link_row_valid (with_message st a) u) then
      { store := save_links st a, pushes := publish_pushes st a,
        ret := none, error := none }
    else
      { store := with_message st a, pushes := [], ret := none,
        error := some PublishError.linkValidation }
  else
    { store := st, pushes := [], ret := none,
      error := some PublishError.messageValidation }

/-- Observable transport and registry actions of a connection session, in
the order they are performed. -/
inductive SessAction where
  | group_add (group channel : String)
  | accept
  | send_json (payload : JObj)
  | group_discard (group channel : String)
  | close_transport
  deriving Repr, DecidableEq

/-- Channel-layer group membership: the list of (group, channel)
subscriptions. Modelled from the spec (the channel layer is an external
collaborator, section 4.5 of the spec): `groupAdd` and `groupDiscard` over a
membership set. -/
abbrev Registry := List (String × String)

/-- Channel-layer `group_add`: registers the membership; re-adding an
existing membership is a no-op. -/
def group_add (g ch : String) (reg : Registry) : Registry :=
  if reg.contains (g, ch) then reg else reg ++ [(g, ch)]

/-- Channel-layer `group_discard`: removes the one membership if present;
discarding an absent membership leaves the registry unchanged. -/
def group_discard (g ch : String) (reg : Registry) : Registry :=
  reg.filter (fun m => !(m == (g, ch)))

/-- Per-connection consumer object. `chat_group_name` models the instance
attribute of the same name: `none` means it was never assigned — it is only
assigned on the success path of `connect`, and reading it while unassigned
raises `AttributeError`. `user_id` holds the Python value assigned from the
token payload (which may itself be `None`). -/
structure Session where
  channel_name : String
  user_id : Option Nat
  chat_group_name : Option String
  deriving Repr, DecidableEq

/-- A freshly constructed consumer, before `connect` runs: no dynamic
attribute has been assigned yet. -/
def initial_session (ch : String) : Session :=
  { channel_name := ch, user_id := none, chat_group_name := none }

/-- Errors a session method can raise: reading a never-assigned instance
attribute, or a `jwt.decode` exception class that no handler catches. -/
inductive SessError where
  | attribute_error
  | uncaught_jwt
  deriving Repr, DecidableEq

/-- Outcome of `jwt.decode(self.service_uid, SECRET_KEY, HS256)`, the
external token validator: the decoded payload on success, else the raised
exception class. `expired` (`ExpiredSignatureError`) and `malformed`
(`DecodeError`) are not subclasses of `InvalidSignatureError`, the only
class `connect` catches. -/
inductive JwtOutcome where
  | ok (payload : JObj)
  | invalid_signature
  | expired
  | malformed
  deriving Repr, DecidableEq

/-- Reads `user_id` from the decoded token payload: Python `None` when the
key is absent or not an integer. -/
def payload_user_id (p : JObj) : Option Nat :=
  match jlookup p "user_id" with
  | some (JVal.int n) => some n
  | _ => none

/-- Outcome of a session method: the session object (attributes possibly
updated), the registry, the transport and registry actions performed before
returning or raising, and the error raised, if any. -/
structure SessResult where
  session : Session
  registry : Registry
  actions : List SessAction
  error : Option SessError
  deriving Repr, DecidableEq

/-- Embeds `DvdadminWebSocket.disconnect` (websocketConfig.py line 215). The
first statement evaluates `self.chat_group_name` — assigned only after
successful token validation — so on a session that never joined the method
raises `AttributeError` before performing any action. Otherwise it discards
the membership (a statement outside any `try`), then attempts `self.close`,
whose exceptions alone are caught and suppressed; `close_fails` says whether
that close call raises. -/
def disconnect (s : Session) (reg : Registry) (close_fails : Bool) : SessResult :=
  match s.chat_group_name with
  | none =>
    { session := s, registry := reg, actions := [],
      error := some SessError.attribute_error }
  | some g =>
    { session := s,
      registry := group_discard g s.channel_name reg,
      actions := [SessAction.group_discard g s.channel_name] ++
        (if close_fails then [] else [SessAction.close_transport]),
      error := none }

/-- Embeds `DvdadminWebSocket.connect` (websocketConfig.py line 160). On a
decoded token: when the payload dict is falsy (empty) nothing at all
happens; otherwise the `user_id` and `chat_group_name` attributes are
assigned, the connection joins its user group, the handshake is accepted,
and exactly one initial system notification is sent — a plain online notice
when the unread count is zero, else an unread reminder carrying the count.
On `InvalidSignatureError` the handler calls `self.disconnect(None)`. Any
other `jwt.decode` exception propagates uncaught. -/
def connect (s : Session) (reg : Registry) (st : Store) (jwt : JwtOutcome) :
    SessResult :=
  match jwt with
  | JwtOutcome.ok payload =>
    if payload = [] then
      { session := s, registry := reg, actions := [], error := none }
    else
      let uid := payload_user_id payload
      let g := "user_" ++ py_str uid
      let s2 : Session := { s with user_id := uid, chat_group_name := some g }
      let reg2 := group_add g s.channel_name reg
      let unread :=
        match uid with
        | some u => _get_message_unread st u
        | none => 0
      let notice :=
        if unread = 0 then set_message "system" "SYSTEM" "您已上线" 0
        else set_message "system" "SYSTEM" "请查看您的未读消息~" unread
      { session := s2, registry := reg2,
        actions := [SessAction.group_add g s.channel_name, SessAction.accept,
          SessAction.send_json notice],
        error := none }
  | JwtOutcome.invalid_signature =>
    let d := disconnect s reg false
    { session := s, registry := d.registry, actions := d.actions,
      error := d.error }
  | JwtOutcome.expired =>
    { session := s, registry := reg, actions := [],
      error := some SessError.uncaught_jwt }
  | JwtOutcome.malformed =>
    { session := s, registry := reg, actions := [],
      error := some SessError.uncaught_jwt }

/-- Boolean recogniser for `send_json` actions. -/
def is_send_json : SessAction → Bool
  | SessAction.send_json _ => true
  | _ => false

/-- Concrete store: one user, id 1, no roles. -/
def c1_store : Store := ⟨[⟨1, [], none, true⟩], [], [], 1⟩

/-- Concrete publish aimed at the nonexistent user 99, so that the
RecipientLink batch fails validation after the message row is saved. -/
def c1_args : PublishArgs := ⟨"t", "c", 0, some [99], none, none, none⟩

/-- Concrete store: one user, id 7, holding roles 1 and 2. -/
def c2_store : Store := ⟨[⟨7, [1, 2], none, true⟩], [], [], 1⟩

/-- Concrete by-role publish targeting roles 1 and 2, both held by user 7. -/
def c2_args : PublishArgs :=
  ⟨"Maintenance", "System down", 1, none, none, some [1, 2], none⟩

/-- Concrete store: one user, id 3, inactive. -/
def c3_store : Store := ⟨[⟨3, [], none, false⟩], [], [], 1⟩

/-- Concrete broadcast publish. -/
def c3_args : PublishArgs := ⟨"t", "c", 3, none, none, none, none⟩

/-- Concrete store: one user, id 4. -/
def c5_store : Store := ⟨[⟨4, [], none, true⟩], [], [], 1⟩

/-- Concrete explicit-user publish resolving exactly one recipient. -/
def c5_args : PublishArgs := ⟨"t", "c", 0, some [4], none, none, none⟩

/-- Concrete store: user 9 has one unread link for message 1. -/
def c6_store : Store :=
  ⟨[⟨9, [], none, true⟩], [⟨1, "a", "b", 0⟩], [⟨1, 9, false⟩], 2⟩

/-- Concrete store: message 1 has the single recipient 2 (one unread link). -/
def c7_store : Store :=
  ⟨[⟨2, [], none, true⟩], [⟨1, "t", "c", 0⟩], [⟨1, 2, false⟩], 2⟩

/-- Concrete inbound client frame naming message 1 and nothing else — in
particular no `unread` key. -/
def c7_frame : JObj := [("message_id", JVal.int 1)]

/-- Concrete explicit-user publish to user 2. -/
def c7_args : PublishArgs := ⟨"t2", "c2", 0, some [2], none, none, none⟩

/-- Concrete session that completed admission for user 1. -/
def c8_session : Session := ⟨"chanA", some 1, some "user_1"⟩

/-- Concrete registry holding an unrelated membership of another handle. -/
def c8_reg : Registry := [("user_2", "chanB")]

/-- Concrete store: message 1 has stored recipients 4 and 8; user 99 exists
but is unrelated to message 1. -/
def c10_store : Store :=
  ⟨[⟨4, [], none, true⟩, ⟨8, [], none, true⟩, ⟨99, [], none, true⟩],
   [⟨1, "t", "c", 0⟩], [⟨1, 4, false⟩, ⟨1, 8, false⟩], 2⟩

/-- Concrete inbound client frame for message 1 carrying arbitrary content. -/
def c10_obj : JObj := [("message_id", JVal.int 1), ("content", JVal.str "hi")]

/-- Concrete store holding message 2 with zero recipient links — the orphan
shape a zero-recipient publish (or a failed link batch, see C1) leaves
behind. -/
def c10_edge_store : Store :=
  ⟨[⟨4, [], none, true⟩], [⟨1, "t", "c", 0⟩, ⟨2, "orphan", "x", 0⟩],
   [⟨1, 4, false⟩], 3⟩

/-- Concrete inbound client frame naming the zero-recipient message 2. -/
def c10_edge_obj : JObj := [("message_id", JVal.int 2)]

/-- Looking up the key just merged by `dictSet` yields the merged value. -/
theorem jlookup_dictSet (o : JObj) (k : String) (v : JVal) :
    jlookup (dictSet o k v) k = some v := by
  induction o with
  | nil => simp [dictSet, jlookup]
  | cons p tl ih =>
    by_cases h : p.1 = k
    · simp [dictSet, jlookup, h]
    · simp [dictSet, jlookup, h, ih]

/-- Discarding a membership that is not registered leaves the registry
unchanged. -/
theorem group_discard_absent (g ch : String) (reg : Registry)
    (h : (g, ch) ∉ reg) : group_discard g ch reg = reg := by
  apply List.filter_eq_self.2
  intro m hm
  have hne : m ≠ (g, ch) := fun he => h (he ▸ hm)
  simp [hne]

/-- Discarding one membership keeps every other membership. -/
theorem group_discard_keeps (g ch : String) (reg : Registry) (m : String × String)
    (hm : m ∈ reg) (hne : m ≠ (g, ch)) : m ∈ group_discard g ch reg := by
  exact List.mem_filter.2 ⟨hm, by simp [hne]⟩

/-- A user with no row in the table contributes nothing to the role join. -/
theorem resolve_by_role_count_zero (us : List UserRow) (ms : List MessageRow)
    (ls : List LinkRow) (n : Nat) (target : List Nat) (u : Nat)
    (hu : us.filter (fun x => x.id == u) = []) :
    (resolve_by_role ⟨us, ms, ls, n⟩ target).count u = 0 := by
  induction us with
  | nil => rfl
  | cons x tl ih =>
    rw [List.filter_cons] at hu
    cases hbe : (x.id == u) with
    | true => rw [hbe] at hu; simp at hu
    | false =>
      rw [hbe] at hu
      simp only [Bool.false_eq_true, if_false] at hu
      have htl := ih hu
      show (((x.roles.filter (fun r => target.contains r)).map (fun _ => x.id)) ++
        resolve_by_role ⟨tl, ms, ls, n⟩ target).count u = 0
      rw [List.count_append, htl, Nat.add_zero]
      refine List.count_eq_zero.2 ?_
      intro hmem
      obtain ⟨r, _, hr⟩ := List.mem_map.1 hmem
      rw [← hr] at hbe
      simp at hbe

/-- Multiplicity of a user in the by-role resolution: a user whose single
table row holds role list `rs` appears once per held targeted role. -/
theorem resolve_by_role_count (us : List UserRow) (ms : List MessageRow)
    (ls : List LinkRow) (n : Nat) (target : List Nat) (u : Nat) (rs : List Nat)
    (hu : (us.filter (fun x => x.id == u)).map UserRow.roles = [rs]) :
    (resolve_by_role ⟨us, ms, ls, n⟩ target).count u =
      (rs.filter (fun r => target.contains r)).length := by
  induction us with
  | nil => simp at hu
  | cons x tl ih =>
    rw [List.filter_cons] at hu
    show (((x.roles.filter (fun r => target.contains r)).map (fun _ => x.id)) ++
      resolve_by_role ⟨tl, ms, ls, n⟩ target).count u =
      (rs.filter (fun r => target.contains r)).length
    rw [List.count_append]
    cases hbe : (x.id == u) with
    | true =>
      rw [hbe] at hu
      simp only [if_true, List.map_cons, List.cons.injEq] at hu
      obtain ⟨hroles, htail⟩ := hu
      have htl0 : tl.filter (fun x => x.id == u) = [] :=
        List.map_eq_nil_iff.1 htail
      rw [resolve_by_role_count_zero tl ms ls n target u htl0, Nat.add_zero]
      have hxu : x.id = u := by simpa using hbe
      have hlen : ((x.roles.filter (fun r => target.contains r)).map
          (fun _ => x.id)).count u =
          ((x.roles.filter (fun r => target.contains r)).map (fun _ => x.id)).length :=
        List.count_eq_length.2 (by
          intro b hb
          obtain ⟨r, _, hr⟩ := List.mem_map.1 hb
          rw [← hr, hxu])
      rw [hlen, List.length_map, hroles]
    | false =>
      rw [hbe] at hu
      simp only [Bool.false_eq_true, if_false] at hu
      rw [ih hu]
      have hzero : ((x.roles.filter (fun r => target.contains r)).map
          (fun _ => x.id)).count u = 0 := by
        refine List.count_eq_zero.2 ?_
        intro hmem
        obtain ⟨r, _, hr⟩ := List.mem_map.1 hmem
        rw [← hr] at hbe
        simp at hbe
      rw [hzero, Nat.zero_add]

/-- When both validations pass, the call appends exactly one link row per
resolved list entry and issues one push per resolved list entry. -/
theorem create_message_push_success (st : Store) (a : PublishArgs)
    (hm : message_valid a.title a.content = true)
    (hv : ((resolved_users (with_message st a) a).all
        (fun u => link_row_valid (with_message st a) u)) = true) :
    (create_message_push st a).store.links =
      st.links ++ (resolved_users (with_message st a) a).map
        (fun u => ⟨st.next_id, u, false⟩) ∧
    (create_message_push st a).pushes.length =
      (resolved_users (with_message st a) a).length ∧
    (create_message_push st a).error = none := by
  simp only [create_message_push, hm, hv, if_true]
  exact ⟨rfl, by simp [publish_pushes], trivial⟩

/-- A call that raised no exception passed both validations. -/
theorem create_message_push_error_none (st : Store) (a : PublishArgs)
    (hok : (create_message_push st a).error = none) :
    message_valid a.title a.content = true ∧
    ((resolved_users (with_message st a) a).all
        (fun u => link_row_valid (with_message st a) u)) = true := by
  by_cases hm : message_valid a.title a.content = true
  · by_cases hv : ((resolved_users (with_message st a) a).all
        (fun u => link_row_valid (with_message st a) u)) = true
    · exact ⟨hm, hv⟩
    · simp [create_message_push, hm, hv] at hok
  · simp [create_message_push, hm] at hok

/-- C1: the Message record is persisted before recipient resolution and
unconditionally — a failing RecipientLink batch leaves the Message row in the
store with the link table untouched, while a failing Message validation
persists nothing at all. -/
theorem create_message_push_message_first (st : Store) (a : PublishArgs) :
    (message_valid a.title a.content = false →
      (create_message_push st a).store = st ∧
      (create_message_push st a).error = some PublishError.messageValidation) ∧
    (message_valid a.title a.content = true →
      (create_message_push st a).store.messages =
        st.messages ++ [⟨st.next_id, a.title, a.content, a.target_type⟩] ∧
      ((create_message_push st a).error = some PublishError.linkValidation →
        (create_message_push st a).store.links = st.links)) := by
  constructor
  · intro h
    simp [create_message_push, h]
  · intro h
    by_cases hv : ((resolved_users (with_message st a) a).all
        (fun u => link_row_valid (with_message st a) u)) = true
    · simp only [create_message_push, h, if_true, hv]
      exact ⟨rfl, fun hx => by cases hx⟩
    · simp only [create_message_push, h, if_true, if_neg hv]
      exact ⟨rfl, fun _ => rfl⟩

/-- C1 witness: a publish whose explicit recipient 99 has no user row saves
the message and fails the batch, leaving zero new links. -/
theorem create_message_push_message_first_witness :
    (create_message_push c1_store c1_args).store.messages =
      c1_store.messages ++ [⟨c1_store.next_id, "t", "c", 0⟩] ∧
    (create_message_push c1_store c1_args).store.links = c1_store.links := by
  have h := (create_message_push_message_first c1_store c1_args).2 (by decide)
  exact ⟨h.1, h.2 (by decide)⟩

/-- C5 counterexample: a successful publish that resolves exactly one
recipient returns Python `None`, not the recipient count 1. -/
theorem create_message_push_ret_counterexample :
    (create_message_push c5_store c5_args).error = none ∧
    (create_message_push c5_store c5_args).pushes.length = 1 ∧
    ¬ (create_message_push c5_store c5_args).ret = some 1 := by decide

/-- C5 amended: the function body of `create_message_push` has no return
statement, so every call returns `None`; the recipient count is not
returned. -/
theorem create_message_push_ret_none (st : Store) (a : PublishArgs) :
    (create_message_push st a).ret = none := by
  simp only [create_message_push]
  split
  · split <;> rfl
  · rfl

/-- C2 counterexample: user 7 holds both targeted roles 1 and 2, and the
by-role publish creates two RecipientLinks for user 7 — not one — and pushes
to group user_7 twice. -/
theorem create_message_push_role_dup_counterexample :
    ((create_message_push c2_store c2_args).store.links.filter
        (fun l => l.users == 7)).length = 2 ∧
    ¬ ((create_message_push c2_store c2_args).store.links.filter
        (fun l => l.users == 7)).length = 1 ∧
    (create_message_push c2_store c2_args).pushes.length = 2 := by decide

/-- C2 amended: the by-role resolution is not deduplicated — a user whose
table row holds role list `rs` receives one RecipientLink per held targeted
role (so two targeted roles give two links), and one push is issued per
resolved list entry. -/
theorem create_message_push_role_link_count (st : Store) (a : PublishArgs)
    (u : Nat) (rs : List Nat)
    (ht : a.target_type = 1)
    (hok : (create_message_push st a).error = none)
    (hu : (st.users.filter (fun x => x.id == u)).map UserRow.roles = [rs])
    (hfresh : ∀ l ∈ st.links, ¬ l.messagecenter = st.next_id) :
    ((create_message_push st a).store.links.filter
        (fun l => l.messagecenter == st.next_id && l.users == u)).length =
      (rs.filter (fun r => (a.target_role.getD []).contains r)).length ∧
    (create_message_push st a).pushes.length =
      (resolve_by_role st (a.target_role.getD [])).length := by
  obtain ⟨hm, hv⟩ := create_message_push_error_none st a hok
  obtain ⟨hlinks, hplen, -⟩ := create_message_push_success st a hm hv
  have hres : resolved_users (with_message st a) a =
      resolve_by_role st (a.target_role.getD []) := by
    simp only [resolved_users, ht]
    rfl
  rw [hres] at hlinks hplen
  refine ⟨?_, hplen⟩
  rw [hlinks, List.filter_append]
  have hold : st.links.filter
      (fun l => l.messagecenter == st.next_id && l.users == u) = [] := by
    refine List.filter_eq_nil_iff.2 ?_
    intro l hl
    simp [hfresh l hl]
  rw [hold, List.nil_append]
  calc (((resolve_by_role st (a.target_role.getD [])).map
        (fun v => (⟨st.next_id, v, false⟩ : LinkRow))).filter
        (fun l => l.messagecenter == st.next_id && l.users == u)).length
      = (((resolve_by_role st (a.target_role.getD [])).filter
          ((fun l => l.messagecenter == st.next_id && l.users == u) ∘
            (fun v => (⟨st.next_id, v, false⟩ : LinkRow)))).map
          (fun v => (⟨st.next_id, v, false⟩ : LinkRow))).length := by
        rw [List.filter_map]
    _ = ((resolve_by_role st (a.target_role.getD [])).filter
          (fun v => v == u)).length := by
        rw [List.length_map]
        congr 1
        refine List.filter_congr ?_
        intro v hv2
        simp [Function.comp]
    _ = (resolve_by_role st (a.target_role.getD [])).count u := by
        rw [List.count, List.countP_eq_length_filter]
    _ = (rs.filter (fun r => (a.target_role.getD []).contains r)).length :=
        resolve_by_role_count st.users st.messages st.links st.next_id
          (a.target_role.getD []) u rs hu

/-- C2 witness: instantiated at user 7 holding roles 1 and 2 with both roles
targeted — two links for user 7 and two pushes. -/
theorem create_message_push_role_link_count_witness :
    ((create_message_push c2_store c2_args).store.links.filter
        (fun l => l.messagecenter == c2_store.next_id && l.users == 7)).length =
      (([1, 2] : List Nat).filter
        (fun r => (c2_args.target_role.getD []).contains r)).length ∧
    (create_message_push c2_store c2_args).pushes.length =
      (resolve_by_role c2_store (c2_args.target_role.getD [])).length :=
  create_message_push_role_link_count c2_store c2_args 7 [1, 2] rfl
    (by decide) (by decide) (by decide)

/-- C3 counterexample: the sole user row (id 3) is inactive, yet the
broadcast publish creates one RecipientLink for it, where the claim demands
zero for inactive users. -/
theorem create_message_push_broadcast_counterexample :
    ((create_message_push c3_store c3_args).store.links.filter
        (fun l => l.users == 3)).length = 1 ∧
    c3_store.users.all (fun x => !x.is_active) = true := by decide

/-- C3 amended: a broadcast publish creates exactly one RecipientLink per
row of the user table regardless of the `is_active` flag; only users with no
row at all (hard-deleted) receive none. -/
theorem create_message_push_broadcast_links (st : Store) (a : PublishArgs)
    (ht : a.target_type = 3)
    (hm : message_valid a.title a.content = true) :
    (create_message_push st a).store.links =
      st.links ++ st.users.map (fun x => ⟨st.next_id, x.id, false⟩) ∧
    (create_message_push st a).error = none := by
  have hres : resolved_users (with_message st a) a = resolve_all st := by
    simp only [resolved_users, ht]
    rfl
  have hv : ((resolved_users (with_message st a) a).all
      (fun u => link_row_valid (with_message st a) u)) = true := by
    rw [hres]
    refine List.all_eq_true.2 ?_
    intro u hu
    simp only [resolve_all] at hu
    obtain ⟨x, hx, rfl⟩ := List.mem_map.1 hu
    exact List.any_eq_true.2 ⟨x, hx, by simp⟩
  obtain ⟨hlinks, -, herr⟩ := create_message_push_success st a hm hv
  rw [hres] at hlinks
  refine ⟨?_, herr⟩
  rw [hlinks]
  simp [resolve_all, List.map_map, Function.comp]

/-- C3 witness: instantiated at the store whose sole user is inactive — the
broadcast still links exactly that one user row. -/
theorem create_message_push_broadcast_links_witness :
    (create_message_push c3_store c3_args).store.links =
      c3_store.links ++
        c3_store.users.map (fun x => ⟨c3_store.next_id, x.id, false⟩) ∧
    (create_message_push c3_store c3_args).error = none :=
  create_message_push_broadcast_links c3_store c3_args rfl (by decide)

/-- C4: on any invalid token — bad signature, expired, or malformed — the
handshake is never accepted and no frame is sent to the caller: the actions
of `connect` contain no accept and no send. -/
theorem connect_no_accept_before_auth (s : Session) (reg : Registry)
    (st : Store) (jwt : JwtOutcome) (h : ∀ p, ¬ jwt = JwtOutcome.ok p) :
    SessAction.accept ∉ (connect s reg st jwt).actions ∧
    ∀ m, SessAction.send_json m ∉ (connect s reg st jwt).actions := by
  cases jwt with
  | ok p => exact absurd rfl (h p)
  | invalid_signature =>
    cases hg : s.chat_group_name with
    | none => simp [connect, disconnect, hg]
    | some g => simp [connect, disconnect, hg]
  | expired => simp [connect]
  | malformed => simp [connect]

/-- C4 witness: a malformed token on a fresh session yields no accept and no
send. -/
theorem connect_no_accept_before_auth_witness :
    SessAction.accept ∉
      (connect (initial_session "ch") [] ⟨[], [], [], 1⟩
        JwtOutcome.malformed).actions ∧
    ∀ m, SessAction.send_json m ∉
      (connect (initial_session "ch") [] ⟨[], [], [], 1⟩
        JwtOutcome.malformed).actions :=
  connect_no_accept_before_auth (initial_session "ch") [] ⟨[], [], [], 1⟩
    JwtOutcome.malformed (fun p h => by cases h)

/-- C9: the invalid-signature handler of `connect` calls `disconnect(None)`,
whose first statement dereferences `chat_group_name` — never assigned on a
session that failed validation — so the cleanup itself raises
`AttributeError` instead of completing a clean close, and no teardown action
is performed. -/
theorem connect_invalid_signature_cleanup (ch : String) (reg : Registry) (st : Store) :
    (connect (initial_session ch) reg st JwtOutcome.invalid_signature).error =
      some SessError.attribute_error ∧
    (connect (initial_session ch) reg st JwtOutcome.invalid_signature).actions = [] ∧
    (disconnect (initial_session ch) reg false).error =
      some SessError.attribute_error ∧
    (initial_session ch).chat_group_name = none := by
  exact ⟨rfl, rfl, rfl, rfl⟩

/-- C6: every successful admission performs exactly the sequence join,
accept, one initial system frame — the frame has sender `system`,
contentType `SYSTEM`, an `unread` field equal to the unread count of the
user, and its content is the plain online notice when that count is zero
and otherwise the unread reminder carrying the count. -/
theorem connect_initial_notice (s : Session) (reg : Registry) (st : Store)
    (payload : JObj) (u : Nat)
    (hp : ¬ payload = [])
    (hu : payload_user_id payload = some u) :
    (connect s reg st (JwtOutcome.ok payload)).actions =
      [SessAction.group_add ("user_" ++ toString u) s.channel_name,
       SessAction.accept,
       SessAction.send_json
         (if _get_message_unread st u = 0 then
            set_message "system" "SYSTEM" "您已上线" 0
          else
            set_message "system" "SYSTEM" "请查看您的未读消息~"
              (_get_message_unread st u))] ∧
    ((connect s reg st (JwtOutcome.ok payload)).actions.filter
        is_send_json).length = 1 ∧
    (∀ m, SessAction.send_json m ∈
        (connect s reg st (JwtOutcome.ok payload)).actions →
      jlookup m "sender" = some (JVal.str "system") ∧
      jlookup m "contentType" = some (JVal.str "SYSTEM") ∧
      jlookup m "unread" = some (JVal.int (_get_message_unread st u))) ∧
    (connect s reg st (JwtOutcome.ok payload)).error = none := by
  have hact : (connect s reg st (JwtOutcome.ok payload)).actions =
      [SessAction.group_add ("user_" ++ toString u) s.channel_name,
       SessAction.accept,
       SessAction.send_json
         (if _get_message_unread st u = 0 then
            set_message "system" "SYSTEM" "您已上线" 0
          else
            set_message "system" "SYSTEM" "请查看您的未读消息~"
              (_get_message_unread st u))] := by
    simp [connect, if_neg hp, hu, py_str]
  refine ⟨hact, ?_, ?_, ?_⟩
  · rw [hact]
    simp [is_send_json]
  · intro m hmem
    rw [hact] at hmem
    simp only [List.mem_cons, List.not_mem_nil, or_false] at hmem
    rcases hmem with h1 | h2 | h3
    · cases h1
    · cases h2
    · have hm2 : m = (if _get_message_unread st u = 0 then
          set_message "system" "SYSTEM" "您已上线" 0
        else
          set_message "system" "SYSTEM" "请查看您的未读消息~"
            (_get_message_unread st u)) := by
        injection h3
      subst hm2
      by_cases h0 : _get_message_unread st u = 0
      · simp [h0, set_message, jlookup]
      · simp [h0, set_message, jlookup]
  · simp [connect, if_neg hp]

/-- C6 witness: user 9 connects with one unread link — the initial frame is
the unread reminder carrying count 1. -/
theorem connect_initial_notice_witness :
    (connect (initial_session "chan") [] c6_store
        (JwtOutcome.ok [("user_id", JVal.int 9)])).actions =
      [SessAction.group_add "user_9" "chan", SessAction.accept,
       SessAction.send_json
         (set_message "system" "SYSTEM" "请查看您的未读消息~" 1)] := by
  have h := connect_initial_notice (initial_session "chan") [] c6_store
    [("user_id", JVal.int 9)] 9 (by decide) (by decide)
  exact h.1.trans (by decide)

/-- C7 counterexample: the re-broadcast path forwards the inbound payload
verbatim — with stored message 1 having recipient 2, the channel-layer frame
produced by `receive`, and hence the frame `push_message` writes to the
client, is the inbound object itself, which carries no `unread` field. -/
theorem push_frame_unread_counterexample :
    receive 5 c7_store c7_frame = [("user_2", c7_frame)] ∧
    jlookup (push_message c7_frame) "unread" = none := by decide

/-- C7 amended: frames issued by the dispatcher fan-out always carry an
integer `unread` field merged at dispatch time; frames issued by the
`receive` re-broadcast path are the inbound payload verbatim and carry
`unread` only if the client already included one. -/
theorem push_frame_unread (st st2 : Store) (a : PublishArgs) (uid : Nat)
    (obj : JObj) :
    (∀ p ∈ (create_message_push st a).pushes,
      ∃ n, jlookup p.2 "unread" = some (JVal.int n)) ∧
    (∀ p ∈ receive uid st2 obj, p.2 = push_message obj) := by
  constructor
  · intro p hp
    have hp2 : p ∈ publish_pushes st a ∨ p ∈ ([] : List GroupSend) := by
      by_cases hm : message_valid a.title a.content = true
      · by_cases hv : ((resolved_users (with_message st a) a).all
            (fun u => link_row_valid (with_message st a) u)) = true
        · left
          simpa [create_message_push, hm, hv] using hp
        · right
          simpa [create_message_push, hm, hv] using hp
      · right
        simpa [create_message_push, hm] using hp
    rcases hp2 with hp2 | hp2
    · obtain ⟨u2, -, rfl⟩ := List.mem_map.1 (by simpa [publish_pushes] using hp2)
      exact ⟨_, jlookup_dictSet _ _ _⟩
    · cases hp2
  · intro p hp
    obtain ⟨su, -, rfl⟩ := List.mem_map.1 (by simpa [receive] using hp)
    rfl

/-- C7 witness: the dispatcher push to user 2 carries `unread` 2, and the
re-broadcast frame for the inbound object is that object itself. -/
theorem push_frame_unread_witness :
    (∃ n, jlookup (("user_2",
        [("contentType", JVal.str "INFO"), ("content", JVal.null),
         ("unread", JVal.int 2)]) : GroupSend).2 "unread" =
      some (JVal.int n)) ∧
    (("user_2", c7_frame) : GroupSend).2 = push_message c7_frame := by
  have h := push_frame_unread c7_store c7_store c7_args 5 c7_frame
  exact ⟨h.1 _ (by decide), h.2 _ (by decide)⟩

/-- C8 counterexample: teardown does not always complete — `disconnect` on a
session that never joined (admission never validated, so `chat_group_name`
was never assigned) raises before performing any teardown action, and the
error is not suppressed. -/
theorem disconnect_total_counterexample :
    (disconnect (initial_session "ch") [("user_1", "other")] false).error =
      some SessError.attribute_error ∧
    (disconnect (initial_session "ch") [("user_1", "other")] false).actions =
      [] := by decide

/-- C8 amended: when `chat_group_name` was assigned (admission passed
validation) teardown always completes — discarding an absent membership is a
no-op, other memberships are untouched, and a transport-close failure is
suppressed (the error is `none` whatever `close_fails` is); but on a session
that never joined, `disconnect` raises `AttributeError`, which is not
suppressed, and teardown performs nothing. -/
theorem disconnect_teardown (s : Session) (reg : Registry)
    (close_fails : Bool) (g : String) (hg : s.chat_group_name = some g) :
    (disconnect s reg close_fails).error = none ∧
    (disconnect s reg close_fails).registry =
      group_discard g s.channel_name reg ∧
    (¬ (g, s.channel_name) ∈ reg →
      (disconnect s reg close_fails).registry = reg) ∧
    (∀ m ∈ reg, ¬ m = (g, s.channel_name) →
      m ∈ (disconnect s reg close_fails).registry) ∧
    (disconnect (initial_session s.channel_name) reg close_fails).error =
      some SessError.attribute_error := by
  refine ⟨?_, ?_, ?_, ?_, rfl⟩
  · simp [disconnect, hg]
  · simp [disconnect, hg]
  · intro habs
    simp only [disconnect, hg]
    exact group_discard_absent g s.channel_name reg habs
  · intro m hmem hne
    simp only [disconnect, hg]
    exact group_discard_keeps g s.channel_name reg m hmem hne

/-- C8 witness: an admitted session whose membership was already removed
tears down cleanly even when the transport close raises, leaving the
unrelated membership in place. -/
theorem disconnect_teardown_witness :
    (disconnect c8_session c8_reg true).error = none ∧
    (disconnect c8_session c8_reg true).registry = c8_reg := by
  have h := disconnect_teardown c8_session c8_reg true "user_1" rfl
  exact ⟨h.1, h.2.2.1 (by decide)⟩

/-- C10 counterexample: message 2 is stored with an empty recipient list,
yet `receive` issues one send — to group user_None, the left-outer-join null
row — which is not the group of any user in the (empty) stored recipient
list, contradicting that the sends go exactly to the groups of the stored
recipients. -/
theorem receive_rebroadcast_counterexample :
    (c10_edge_store.links.filter (fun l => l.messagecenter == 2)) = [] ∧
    receive 5 c10_edge_store c10_edge_obj = [("user_None", c10_edge_obj)] ∧
    ¬ receive 5 c10_edge_store c10_edge_obj = [] := by decide

/-- C10 amended: `receive` is insensitive to which user owns the session —
there is no relation check between the sender and the message; with an id
matching no stored message it issues no send and raises no error (it is
total and returns the empty send list); with a stored message id whose
recipient list is nonempty it forwards the inbound object verbatim to the
group of every user in the stored recipient list; but for a stored message
with zero recipient links it issues one send, to group user_None (the
left-outer-join null row rendered through Python str), instead of none. -/
theorem receive_rebroadcast_total (uid uid2 : Nat) (st : Store) (obj : JObj)
    (m : Nat) (hm : jlookup obj "message_id" = some (JVal.int m)) :
    receive uid st obj = receive uid2 st obj ∧
    ((∀ r ∈ st.messages, ¬ r.id = m) → receive uid st obj = []) ∧
    (st.messages.any (fun r => r.id == m) = true →
      (¬ (st.links.filter (fun l => l.messagecenter == m)) = [] →
        receive uid st obj =
          (st.links.filter (fun l => l.messagecenter == m)).map
            (fun l => ("user_" ++ toString l.users, obj))) ∧
      ((st.links.filter (fun l => l.messagecenter == m)) = [] →
        receive uid st obj = [("user_None", obj)])) := by
  refine ⟨rfl, ?_, ?_⟩
  · intro hno
    have hany : st.messages.any (fun r => r.id == m) = false := by
      refine List.any_eq_false.2 ?_
      intro r hr
      simpa using hno r hr
    simp [receive, hm, _get_message_center_instance, hany]
  · intro hany
    constructor
    · intro hne
      have hmain : _get_message_center_instance st (some m) =
          (st.links.filter (fun l => l.messagecenter == m)).map
            (fun l => some l.users) := by
        simp only [_get_message_center_instance, hany, if_true]
        cases hfe : (st.links.filter (fun l => l.messagecenter == m)).map
            (fun l => some l.users) with
        | nil => exact absurd (List.map_eq_nil_iff.1 hfe) hne
        | cons a as => rfl
      simp only [receive, hm]
      rw [hmain, List.map_map]
      simp [Function.comp, py_str]
    · intro hfil
      simp only [receive, hm]
      simp only [_get_message_center_instance, hany, if_true]
      rw [hfil]
      simp [py_str]

/-- C10 witness: both reachable stored-message shapes, concretely — an
unrelated sender (user 99) re-broadcasts message 1 and the inbound object
is forwarded verbatim to the groups of the stored recipients 4 and 8; on
the zero-recipient message 2 the single send goes to group user_None. -/
theorem receive_rebroadcast_total_witness :
    receive 99 c10_store c10_obj =
      [("user_4", c10_obj), ("user_8", c10_obj)] ∧
    receive 99 c10_edge_store c10_edge_obj =
      [("user_None", c10_edge_obj)] := by
  have h1 := receive_rebroadcast_total 99 100 c10_store c10_obj 1 (by decide)
  have h2 := receive_rebroadcast_total 99 100 c10_edge_store c10_edge_obj 2
    (by decide)
  constructor
  · exact ((h1.2.2 (by decide)).1 (by decide)).trans (by decide)
  · exact (h2.2.2 (by decide)).2 (by decide)

end WsConfig
